import Mathlib

/-!
Verification of the `/generate_pdf` request pipeline of a small Flask QR/PDF
service (`src/app.py`).

Shallow embedding conventions:
* The remote Supabase store is an external collaborator; each table lookup is
  modelled as a function returning `Except String (Option row)` — `Except.error`
  is a raised client exception (network failure etc., caught by the handler's
  catch-all), `Except.ok none` is a query returning zero rows (the functions in
  the source are annotated `-> Optional[Dict]`), `Except.ok (some r)` a row.
* Python string truthiness (`if not s:` is taken for both `None` and `""`) is
  modelled by `strTruthy : Option String → Bool`.
* The QR library (`qrcode.make`) is an external deterministic encoder, modelled
  as an environment function `String → Except String QRImage`, a `QRImage`
  being its black/white module matrix.
* The ReportLab canvas is modelled as the list of drawing operations issued on
  it (`DrawOp`), and a PDF page as its size plus its content operations.
* `PyPDF2.PageObject.merge_page` is modelled from the library's semantics:
  the overlay page's content stream is drawn on top of the base page's content
  and the base page's geometry is kept; `merge_page` performs no page-size
  comparison and does not fail on mismatched geometry.
* The handler returns a `Response` (either a PDF file download or a JSON error
  with a status code) together with the list of external effects it performed,
  in order (`Event`), so that claims of the form "no fetch is performed" or
  "the string passed to the QR encoder" are directly statable.
-/

namespace QrService

/-- A row of the `properties` table, with the columns selected by the source:
`property_code, property_name, qr_url, landing_page_id` (a missing/null column
is `none`). -/
structure PropRow where
  property_code : Option String
  property_name : Option String
  qr_url : Option String
  landing_page_id : Option String
deriving DecidableEq

/-- A row of the `landing_pages` table (only the `url` column is selected). -/
structure LandingRow where
  url : Option String
deriving DecidableEq

/-- A QR raster: the matrix of black/white modules produced by the encoder. -/
abbrev QRImage := List (List Bool)

/-- A drawing operation issued on the ReportLab canvas. -/
inductive DrawOp where
  | setFont (name : String) (size : Nat)
  | text (x y : Nat) (s : String)
  | image (x y w h : Nat) (img : QRImage)
deriving DecidableEq

/-- A single PDF page: its geometry (media box, in points) and its content
operations. -/
structure Page where
  width : Nat
  height : Nat
  ops : List DrawOp
deriving DecidableEq

/-- An external effect performed while handling a request. -/
inductive Event where
  | fetchProperty (id : String)
  | fetchLanding (id : String)
  | qrEncode (text : String)
  | readTemplate
  | buildPdf
deriving DecidableEq

/-- The HTTP response of the handler: either a successful file download
(`send_file` with a mimetype and an attachment filename; HTTP 200) or a JSON
error body with a status code.  The two shapes are the two constructors of this
sum, so one request produces exactly one of them. -/
inductive Response where
  | pdf (filename : String) (mimetype : String) (pages : List Page)
  | jsonError (status : Nat) (msg : String)
deriving DecidableEq

/-- The request body as seen through `request.get_json(silent=True)`:
`invalid` is an absent or unparsable JSON body (where `get_json` yields `None`),
`obj pid` a JSON object whose `property_id` member is `pid` (absent → `none`). -/
inductive ReqBody where
  | invalid
  | obj (property_id : Option String)

/-- The external world of one request: the two Supabase tables, the template
file on disk, and the QR encoder library. -/
structure Env where
  db_properties : String → Except String (Option PropRow)
  db_landing : String → Except String (Option LandingRow)
  templateExists : Bool
  readTemplate : Except String (List Page)
  qrEnc : String → Except String QRImage

/-- Python truthiness of an optional string: `None` and `""` are falsy. -/
def strTruthy : Option String → Bool
  | none => false
  | some s => if s = "" then false else true

/-- The final fallback URL hard-coded in the handler. -/
def DEFAULT_URL : String := "https://app.applyfastnow.com"

/-- The static template path (the source joins it to the app directory). -/
def TEMPLATE_PATH : String := "vss-template.pdf"

/-- A single-quote character, used in the 404 error message. -/
def squote : String := String.singleton (Char.ofNat 39)

/-- The 404 error message of the handler:
`No property found for id '<property_id>'`. -/
def notFoundMsg (property_id : String) : String :=
  "No property found for id " ++ squote ++ property_id ++ squote

/-- `data = request.get_json(silent=True) or {}` followed by
`data.get("property_id")`: an invalid body collapses to the empty object. -/
def getPropertyId : ReqBody → Option String
  | .invalid => none
  | .obj pid => pid

/-- `_fetch_property_row`: a single lookup of the `properties` table by id. -/
def fetch_property_row (env : Env) (property_id : String) :
    Except String (Option PropRow) :=
  env.db_properties property_id

/-- `_fetch_landing_page_url`: returns `None` for a falsy `landing_page_id`,
otherwise queries `landing_pages` by id and returns its `url` column when the
row exists and the column is truthy.  Second component: the effects performed. -/
def fetch_landing_page_url (env : Env) (landing_page_id : Option String) :
    Except String (Option String) × List Event :=
  match landing_page_id with
  | none => (.ok none, [])
  | some i =>
    if i = "" then (.ok none, [])
    else
      match env.db_landing i with
      | .error e => (.error e, [.fetchLanding i])
      | .ok none => (.ok none, [.fetchLanding i])
      | .ok (some row) =>
        (.ok (if strTruthy row.url then row.url else none), [.fetchLanding i])

/-- Step 2 of the handler, "Determine QR target URL":
`properties.qr_url`, else the linked `landing_pages.url`, else the hard-coded
default.  Second component: the effects performed. -/
def resolveTargetUrl (env : Env) (prop : PropRow) :
    Except String String × List Event :=
  if strTruthy prop.qr_url then (.ok (prop.qr_url.getD ""), [])
  else
    match fetch_landing_page_url env prop.landing_page_id with
    | (.error e, tr) => (.error e, tr)
    | (.ok t, tr) =>
      if strTruthy t then (.ok (t.getD ""), tr) else (.ok DEFAULT_URL, tr)

/-- Step 3 of the handler: the overlay page drawn with ReportLab — a letter
sized (612×792) page carrying the font selection, the two `drawString` calls
(`"Property: "`/`"Code: "` prefixes included) at the fixed anchors, and the
QR image placed at the fixed box. -/
def composeOverlay (property_name property_code : String) (img : QRImage) :
    Page :=
  { width := 612
    height := 792
    ops := [ .setFont "Helvetica-Bold" 13
           , .text 72 700 ("Property: " ++ property_name)
           , .text 72 680 ("Code: " ++ property_code)
           , .image 430 560 150 150 img ] }

/-- `PyPDF2.PageObject.merge_page`, from the library's semantics: the overlay
content is drawn on top of the base content; the base page's media box is kept
unchanged; no geometry comparison is made and no failure is possible. -/
def mergePage (base overlay : Page) : Page :=
  { width := base.width, height := base.height, ops := base.ops ++ overlay.ops }

/-- Steps 3–5 of the handler, after the target URL has been resolved: encode
the QR, compose the overlay, read the template, merge, and answer with the
file download whose name is `property_code or property_id` plus `.pdf`.
`tr` is the effect trace accumulated so far. -/
def afterUrl (env : Env) (property_id property_code property_name : String)
    (target_url : String) (tr : List Event) : Response × List Event :=
  match env.qrEnc target_url with
  | .error e => (.jsonError 500 e, tr ++ [.qrEncode target_url])
  | .ok img =>
    match env.readTemplate with
    | .error e =>
      (.jsonError 500 e, tr ++ [.qrEncode target_url, .readTemplate])
    | .ok [] =>
      (.jsonError 500 "Template has no pages",
        tr ++ [.qrEncode target_url, .readTemplate])
    | .ok (base_page :: _) =>
      let merged := mergePage base_page (composeOverlay property_name property_code img)
      let filename :=
        (if property_code = "" then property_id else property_code) ++ ".pdf"
      (.pdf filename "application/pdf" [merged],
        tr ++ [.qrEncode target_url, .readTemplate, .buildPdf])

/-- Steps 1–2 of the handler once a property row has been fetched: read the
`property_code`/`property_name` columns (`or ""`), resolve the target URL,
and continue with `afterUrl`. -/
def afterFetch (env : Env) (property_id : String) (prop : PropRow) :
    Response × List Event :=
  let property_code := prop.property_code.getD ""
  let property_name := prop.property_name.getD ""
  let res := resolveTargetUrl env prop
  let tr := Event.fetchProperty property_id :: res.2
  match res.1 with
  | .error e => (.jsonError 500 e, tr)
  | .ok target_url =>
    afterUrl env property_id property_code property_name target_url tr

/-- The `/generate_pdf` POST handler.  The whole body of the source function is
wrapped in `try/except Exception`, so every raised failure surfaces as one of
the `Except.error` branches below and becomes a 500 JSON error; the function is
total, matching the catch-all boundary. -/
def generate_pdf (env : Env) (body : ReqBody) : Response × List Event :=
  match getPropertyId body with
  | none => (.jsonError 400 "Missing property_id", [])
  | some property_id =>
    if property_id = "" then (.jsonError 400 "Missing property_id", [])
    else if env.templateExists = false then
      (.jsonError 500 ("Template not found at " ++ TEMPLATE_PATH), [])
    else
      match fetch_property_row env property_id with
      | .error e => (.jsonError 500 e, [.fetchProperty property_id])
      | .ok none =>
        (.jsonError 404 (notFoundMsg property_id), [.fetchProperty property_id])
      | .ok (some prop) => afterFetch env property_id prop

/-- The `landing_pages` table as a pure partial map, forgetting raised errors
(used only to compare with the specified fallback chain on paths where no
error was raised). -/
def landingOf (env : Env) (i : String) : Option LandingRow :=
  match env.db_landing i with
  | .ok r => r
  | .error _ => none

/-- Modelled from the spec's words, for comparison with the code: the second
and third steps of the documented fallback chain — the linked landing page's
`url` when the record has a `landing_page_id` resolving to a row with a
non-empty `url` (an empty `landing_page_id` does not resolve), otherwise the
fixed default URL. -/
def specLandingFallback (landing : String → Option LandingRow)
    (landing_page_id : Option String) : String :=
  match landing_page_id with
  | none => DEFAULT_URL
  | some lp =>
    if lp = "" then DEFAULT_URL
    else
      match landing lp with
      | none => DEFAULT_URL
      | some row =>
        match row.url with
        | none => DEFAULT_URL
        | some u => if u = "" then DEFAULT_URL else u

/-- Modelled from the spec's words, for comparison with the code: the full
documented fallback chain — the record's `qr_url` if present and non-empty,
otherwise `specLandingFallback`. -/
def specFallbackUrl (landing : String → Option LandingRow) (prop : PropRow) :
    String :=
  match prop.qr_url with
  | none => specLandingFallback landing prop.landing_page_id
  | some u => if u = "" then specLandingFallback landing prop.landing_page_id else u

/-! Concrete data used by witnesses and counterexamples. -/

/-- A small concrete QR raster. -/
def qrImg0 : QRImage := [[true, false], [false, true]]

/-- A fully populated property row. -/
def row1 : PropRow :=
  { property_code := some "CODE1"
    property_name := some "Name One"
    qr_url := some "https://example.com/q"
    landing_page_id := none }

/-- A degraded property row: every column null. -/
def rowBare : PropRow :=
  { property_code := none
    property_name := none
    qr_url := none
    landing_page_id := none }

/-- A blank letter-sized template page. -/
def blankPage : Page := { width := 612, height := 792, ops := [] }

/-- A template page whose geometry differs from the 612×792 overlay. -/
def smallPage : Page :=
  { width := 300, height := 400, ops := [.text 5 5 "base artwork"] }

/-- A well-behaved concrete environment: one property row under id `p1`,
no landing pages, a blank letter-sized template, a total QR encoder. -/
def env0 : Env :=
  { db_properties := fun i => if i = "p1" then .ok (some row1) else .ok none
    db_landing := fun _ => .ok none
    templateExists := true
    readTemplate := .ok [blankPage]
    qrEnc := fun _ => .ok qrImg0 }

/-- `env0` with the degraded row under `p1`. -/
def envBare : Env :=
  { env0 with
    db_properties := fun i => if i = "p1" then .ok (some rowBare) else .ok none }

/-- `env0` with a template page whose size differs from the overlay's. -/
def envMismatch : Env := { env0 with readTemplate := .ok [smallPage] }

/-! Helper lemmas about the effect traces and the resolved URL. -/

/-- Every effect of `_fetch_landing_page_url` is a landing-page fetch. -/
lemma mem_landing_trace (env : Env) (lpid : Option String) (e : Event)
    (h : e ∈ (fetch_landing_page_url env lpid).2) : ∃ i, e = .fetchLanding i := by
  unfold fetch_landing_page_url at h
  rcases lpid with _ | i
  · simp at h
  · by_cases hi : i = "" <;> simp [hi] at h
    rcases hdb : env.db_landing i with _ | r
    · rw [hdb] at h; simp at h; exact ⟨i, h⟩
    · rcases r with _ | row <;> rw [hdb] at h <;> simp at h <;> exact ⟨i, h⟩

/-- Every effect of the target-URL resolution step is a landing-page fetch. -/
lemma mem_resolve_trace (env : Env) (prop : PropRow) (e : Event)
    (h : e ∈ (resolveTargetUrl env prop).2) : ∃ i, e = .fetchLanding i := by
  unfold resolveTargetUrl at h
  by_cases hq : strTruthy prop.qr_url
  · simp [hq] at h
  · simp [hq] at h
    rcases hl : fetch_landing_page_url env prop.landing_page_id with ⟨r, tr⟩
    have htr : e ∈ (fetch_landing_page_url env prop.landing_page_id).2 := by
      rw [hl]
      rw [hl] at h
      rcases r with er | t
      · simpa using h
      · by_cases ht : strTruthy t <;> simp [ht] at h <;> simpa using h
    exact mem_landing_trace env prop.landing_page_id e htr

/-- When `_fetch_landing_page_url` completes without raising, its value agrees
with the spec-side landing fallback: a truthy `url` of a resolved row, or the
default. -/
lemma landing_ok_spec (env : Env) (lpid : Option String) (t : Option String)
    (h : (fetch_landing_page_url env lpid).1 = .ok t) :
    (if strTruthy t then t.getD "" else DEFAULT_URL) =
      specLandingFallback (landingOf env) lpid := by
  unfold fetch_landing_page_url at h
  unfold specLandingFallback landingOf
  rcases lpid with _ | i
  · simp at h; subst h; simp [strTruthy]
  · by_cases hi : i = "" <;> simp [hi] at h ⊢
    · subst h; simp [strTruthy]
    · rcases hdb : env.db_landing i with er | r
      · rw [hdb] at h; simp at h
      · rcases r with _ | row
        · rw [hdb] at h; simp at h; subst h; simp [strTruthy]
        · rw [hdb] at h; simp at h; subst h
          rcases hu : row.url with _ | u
          · simp [strTruthy, hu]
          · by_cases hue : u = "" <;> simp [strTruthy, hue, hu]

/-- When the target-URL resolution completes without raising, its value is the
spec-side fallback chain, and it is non-empty. -/
lemma resolve_ok_spec (env : Env) (prop : PropRow) (u : String)
    (h : (resolveTargetUrl env prop).1 = .ok u) :
    u = specFallbackUrl (landingOf env) prop ∧ u ≠ "" := by
  unfold resolveTargetUrl at h
  unfold specFallbackUrl
  by_cases hq : strTruthy prop.qr_url
  · simp [hq] at h
    rcases hqu : prop.qr_url with _ | s
    · rw [hqu] at hq; simp [strTruthy] at hq
    · rw [hqu] at hq h
      simp [strTruthy] at hq
      simp at h
      subst h
      simp [hq]
  · simp [hq] at h
    rcases hl : fetch_landing_page_url env prop.landing_page_id with ⟨r, tr⟩
    rw [hl] at h
    rcases r with er | t
    · simp at h
    · have hfst : (fetch_landing_page_url env prop.landing_page_id).1 = .ok t := by
        rw [hl]
      have hspec := landing_ok_spec env prop.landing_page_id t hfst
      by_cases ht : strTruthy t <;> simp [ht] at h <;> subst h
      · constructor
        · rcases hqu : prop.qr_url with _ | s
          · simp [← hspec, ht]
          · rw [hqu] at hq; simp [strTruthy] at hq
            simp [hq, ← hspec, ht]
        · rcases htu : t with _ | s
          · rw [htu] at ht; simp [strTruthy] at ht
          · rw [htu] at ht; simp [strTruthy] at ht; simpa [htu] using ht
      · constructor
        · rcases hqu : prop.qr_url with _ | s
          · simp [← hspec, ht]
          · rw [hqu] at hq; simp [strTruthy] at hq
            simp [hq, ← hspec, ht]
        · simp [DEFAULT_URL]

/-- Any effect recorded by `afterUrl` is either one already in the incoming
trace, the QR encoding of the given target URL, the template read, or the
final PDF build. -/
lemma mem_afterUrl_trace (env : Env) (q c n url : String) (tr : List Event)
    (e : Event) (h : e ∈ (afterUrl env q c n url tr).2) :
    e ∈ tr ∨ e = .qrEncode url ∨ e = .readTemplate ∨ e = .buildPdf := by
  unfold afterUrl at h
  rcases henc : env.qrEnc url with er | img <;> rw [henc] at h
  · simp at h; tauto
  · rcases hread : env.readTemplate with er | pages <;> rw [hread] at h
    · simp at h; tauto
    · rcases pages with _ | ⟨b, rest⟩ <;> simp at h <;> tauto

/-- The only property fetch recorded after a successful row fetch is the one
for the requested id. -/
lemma fetchProperty_mem_afterFetch (env : Env) (q : String) (prop : PropRow)
    (pid : String) (h : Event.fetchProperty pid ∈ (afterFetch env q prop).2) :
    pid = q := by
  unfold afterFetch at h
  rcases hr : resolveTargetUrl env prop with ⟨r, tr⟩
  rw [hr] at h
  have htr : ∀ e ∈ tr, ∃ i, e = Event.fetchLanding i := by
    intro e he
    exact mem_resolve_trace env prop e (by rw [hr]; exact he)
  rcases r with er | target
  · simp at h
    rcases h with h | h
    · exact h
    · rcases htr _ h with ⟨i, hi⟩; cases hi
  · simp only at h
    rcases mem_afterUrl_trace env q _ _ target _ _ h with hm | hm | hm | hm
    · simp at hm
      rcases hm with hm | hm
      · exact hm
      · rcases htr _ hm with ⟨i, hi⟩; cases hi
    · cases hm
    · cases hm
    · cases hm

/-- A QR encoding recorded after a successful row fetch carries exactly the
resolved target URL. -/
lemma qrEncode_mem_afterFetch (env : Env) (q : String) (prop : PropRow)
    (u : String) (h : Event.qrEncode u ∈ (afterFetch env q prop).2) :
    (resolveTargetUrl env prop).1 = .ok u := by
  unfold afterFetch at h
  rcases hr : resolveTargetUrl env prop with ⟨r, tr⟩
  rw [hr] at h
  have htr : ∀ e ∈ tr, ∃ i, e = Event.fetchLanding i := by
    intro e he
    exact mem_resolve_trace env prop e (by rw [hr]; exact he)
  rcases r with er | target
  · simp at h
    rcases htr _ h with ⟨i, hi⟩; cases hi
  · simp only at h
    rcases mem_afterUrl_trace env q _ _ target _ _ h with hm | hm | hm | hm
    · simp at hm
      rcases htr _ hm with ⟨i, hi⟩; cases hi
    · injection hm with hm2
      subst hm2
      rfl
    · cases hm
    · cases hm

/-- C1: a POST to `/generate_pdf` whose JSON body lacks a `property_id` member
or supplies an empty one is answered with HTTP 400 and the JSON body
`error: Missing property_id`, and the effect trace is empty: no record fetch,
no QR encoding and no PDF generation is performed for that request. -/
theorem missing_property_id_rejected (env : Env) (body : ReqBody)
    (h : getPropertyId body = none ∨ getPropertyId body = some "") :
    generate_pdf env body = (.jsonError 400 "Missing property_id", []) := by
  rcases h with h | h <;> simp [generate_pdf, h]

/-- Witness for C1 at the concrete body carrying an empty `property_id`. -/
theorem missing_property_id_rejected_witness :
    (getPropertyId (.obj (some "")) = none ∨
      getPropertyId (.obj (some "")) = some "") ∧
    generate_pdf env0 (.obj (some "")) =
      (.jsonError 400 "Missing property_id", []) :=
  ⟨Or.inr rfl, missing_property_id_rejected env0 (.obj (some "")) (Or.inr rfl)⟩

/-- C9: a POST whose body is absent or not valid JSON (where
`request.get_json(silent=True)` yields `None`) is treated as an empty object
and answered with HTTP 400 `Missing property_id`, not a parse failure and not
HTTP 500. -/
theorem invalid_body_treated_as_empty (env : Env) :
    generate_pdf env .invalid = (.jsonError 400 "Missing property_id", []) :=
  rfl

/-- C2: whenever the handler queried the properties store for an id and the
store returned zero rows, the response is HTTP 404 with the JSON error body —
no other status code. -/
theorem zero_rows_returns_404 (env : Env) (body : ReqBody) (pid : String)
    (hfetch : Event.fetchProperty pid ∈ (generate_pdf env body).2)
    (hzero : env.db_properties pid = .ok none) :
    (generate_pdf env body).1 = .jsonError 404 (notFoundMsg pid) := by
  cases body with
  | invalid => simp [generate_pdf, getPropertyId] at hfetch
  | obj pid0 =>
    rcases pid0 with _ | q
    · simp [generate_pdf, getPropertyId] at hfetch
    · simp only [generate_pdf, getPropertyId] at hfetch ⊢
      by_cases hq : q = ""
      · simp [hq] at hfetch
      · simp only [if_neg hq] at hfetch ⊢
        rcases ht : env.templateExists with _ | _
        · simp [ht] at hfetch
        · simp only [ht, Bool.true_eq_false, if_false] at hfetch ⊢
          rcases hf : fetch_property_row env q with er | r
          · rw [hf] at hfetch
            simp at hfetch
            subst hfetch
            simp [fetch_property_row, hzero] at hf
          · rcases r with _ | prop
            · rw [hf] at hfetch
              simp at hfetch
              subst hfetch
              simp
            · rw [hf] at hfetch
              have hfetch2 : Event.fetchProperty pid ∈ (afterFetch env q prop).2 :=
                hfetch
              have hpq := fetchProperty_mem_afterFetch env q prop pid hfetch2
              subst hpq
              simp [fetch_property_row, hzero] at hf

/-- Witness for C2: in `env0` the id `p2` resolves to zero rows. -/
theorem zero_rows_returns_404_witness :
    Event.fetchProperty "p2" ∈ (generate_pdf env0 (.obj (some "p2"))).2 ∧
    env0.db_properties "p2" = .ok none ∧
    (generate_pdf env0 (.obj (some "p2"))).1 =
      .jsonError 404 (notFoundMsg "p2") :=
  ⟨by decide, by simp [env0],
    zero_rows_returns_404 env0 (.obj (some "p2")) "p2" (by decide)
      (by simp [env0])⟩

/-- C3: for every successfully fetched property record, the URL that gets
encoded into the QR code is exactly the documented fallback chain — the
record's non-empty `qr_url`, else the non-empty `url` of the resolved linked
landing page, else the fixed default — and it is never empty. -/
theorem qr_target_follows_fallback_chain (env : Env) (body : ReqBody)
    (pid : String) (prop : PropRow) (u : String)
    (hpid : getPropertyId body = some pid)
    (hrow : env.db_properties pid = .ok (some prop))
    (henc : Event.qrEncode u ∈ (generate_pdf env body).2) :
    u = specFallbackUrl (landingOf env) prop ∧ u ≠ "" := by
  cases body with
  | invalid => cases hpid
  | obj pid0 =>
    cases hpid
    simp only [generate_pdf, getPropertyId] at henc
    by_cases hq : pid = ""
    · simp [hq] at henc
    · simp only [if_neg hq] at henc
      rcases ht : env.templateExists with _ | _
      · simp [ht] at henc
      · simp only [ht, Bool.true_eq_false, if_false] at henc
        have hf : fetch_property_row env pid = .ok (some prop) := hrow
        rw [hf] at henc
        exact resolve_ok_spec env prop u
          (qrEncode_mem_afterFetch env pid prop u henc)

/-- Witness for C3 at `env0`: the record's own `qr_url` wins the chain. -/
theorem qr_target_follows_fallback_chain_witness :
    getPropertyId (.obj (some "p1")) = some "p1" ∧
    env0.db_properties "p1" = .ok (some row1) ∧
    Event.qrEncode "https://example.com/q" ∈
      (generate_pdf env0 (.obj (some "p1"))).2 ∧
    ("https://example.com/q" = specFallbackUrl (landingOf env0) row1 ∧
      "https://example.com/q" ≠ "") :=
  ⟨rfl, by simp [env0],
    by decide,
    qr_target_follows_fallback_chain env0 (.obj (some "p1")) "p1" row1
      "https://example.com/q" rfl (by simp [env0]) (by decide)⟩

/-- C10: on every execution path that reaches QR generation, the string handed
to the QR encoder is non-empty — the fallback chain bottoms out in a fixed
non-empty constant. -/
theorem qr_encoder_input_nonempty (env : Env) (body : ReqBody) (u : String)
    (h : Event.qrEncode u ∈ (generate_pdf env body).2) : u ≠ "" := by
  cases body with
  | invalid => simp [generate_pdf, getPropertyId] at h
  | obj pid0 =>
    rcases pid0 with _ | q
    · simp [generate_pdf, getPropertyId] at h
    · simp only [generate_pdf, getPropertyId] at h
      by_cases hq : q = ""
      · simp [hq] at h
      · simp only [if_neg hq] at h
        rcases ht : env.templateExists with _ | _
        · simp [ht] at h
        · simp only [ht, Bool.true_eq_false, if_false] at h
          rcases hf : fetch_property_row env q with er | r
          · rw [hf] at h; simp at h
          · rcases r with _ | prop
            · rw [hf] at h; simp at h
            · rw [hf] at h
              exact (resolve_ok_spec env prop u
                (qrEncode_mem_afterFetch env q prop u h)).2

/-- Witness for C10 at `env0`. -/
theorem qr_encoder_input_nonempty_witness :
    Event.qrEncode "https://example.com/q" ∈
      (generate_pdf env0 (.obj (some "p1"))).2 ∧
    "https://example.com/q" ≠ "" :=
  ⟨by decide,
    qr_encoder_input_nonempty env0 (.obj (some "p1")) "https://example.com/q"
      (by decide)⟩

/-- The steps after URL resolution answer either with a PDF download or with a
500 JSON error. -/
lemma afterUrl_fst_shape (env : Env) (q c n url : String) (tr : List Event) :
    (∃ f pages, (afterUrl env q c n url tr).1 = .pdf f "application/pdf" pages) ∨
    (∃ m, (afterUrl env q c n url tr).1 = .jsonError 500 m) := by
  unfold afterUrl
  rcases henc : env.qrEnc url with er | img
  · right; exact ⟨er, rfl⟩
  · rcases hread : env.readTemplate with er | ps
    · right; exact ⟨er, rfl⟩
    · rcases ps with _ | ⟨b, rest⟩
      · right; exact ⟨"Template has no pages", rfl⟩
      · left
        exact ⟨(if c = "" then q else c) ++ ".pdf", [mergePage b (composeOverlay n c img)], rfl⟩

/-- The steps after a successful row fetch answer either with a PDF download
or with a 500 JSON error. -/
lemma afterFetch_fst_shape (env : Env) (q : String) (prop : PropRow) :
    (∃ f pages, (afterFetch env q prop).1 = .pdf f "application/pdf" pages) ∨
    (∃ m, (afterFetch env q prop).1 = .jsonError 500 m) := by
  unfold afterFetch
  rcases hr : resolveTargetUrl env prop with ⟨r, tr⟩
  rcases r with er | target
  · right; exact ⟨er, rfl⟩
  · exact afterUrl_fst_shape env q _ _ target _

/-- C4: every request is answered with exactly one of the two response
shapes — a PDF download with the `application/pdf` mimetype, or a JSON error
whose status is 400, 404 or 500; no input of the environment (raised store
errors, template failures, encoder failures) escapes the handler boundary. -/
theorem response_is_pdf_or_json_error (env : Env) (body : ReqBody) :
    (∃ f pages, (generate_pdf env body).1 = .pdf f "application/pdf" pages) ∨
    (∃ s m, (generate_pdf env body).1 = .jsonError s m ∧
      (s = 400 ∨ s = 404 ∨ s = 500)) := by
  cases body with
  | invalid => right; exact ⟨400, "Missing property_id", rfl, Or.inl rfl⟩
  | obj pid0 =>
    rcases pid0 with _ | q
    · right; exact ⟨400, "Missing property_id", rfl, Or.inl rfl⟩
    · simp only [generate_pdf, getPropertyId]
      by_cases hq : q = ""
      · simp only [if_pos hq]
        right; exact ⟨400, "Missing property_id", rfl, Or.inl rfl⟩
      · simp only [if_neg hq]
        rcases ht : env.templateExists with _ | _
        · right
          exact ⟨500, "Template not found at " ++ TEMPLATE_PATH, rfl, Or.inr (Or.inr rfl)⟩
        · simp only [Bool.true_eq_false, if_false]
          rcases hf : fetch_property_row env q with er | r
          · right; exact ⟨500, er, rfl, Or.inr (Or.inr rfl)⟩
          · rcases r with _ | prop
            · right; exact ⟨404, notFoundMsg q, rfl, Or.inr (Or.inl rfl)⟩
            · rcases afterFetch_fst_shape env q prop with ⟨f, pages, hs⟩ | ⟨m, hs⟩
              · left; exact ⟨f, pages, hs⟩
              · right; exact ⟨500, m, hs, Or.inr (Or.inr rfl)⟩

/-- Inversion of a successful answer of the post-fetch steps: the mimetype is
`application/pdf` and the filename is `property_code or property_id` plus the
`.pdf` extension. -/
lemma afterFetch_pdf_filename (env : Env) (q : String) (prop : PropRow)
    (f m : String) (pages : List Page)
    (h : (afterFetch env q prop).1 = .pdf f m pages) :
    m = "application/pdf" ∧
    f = (if prop.property_code.getD "" = "" then q
         else prop.property_code.getD "") ++ ".pdf" := by
  unfold afterFetch at h
  rcases hr : resolveTargetUrl env prop with ⟨r, tr⟩
  rw [hr] at h
  rcases r with er | target
  · simp at h
  · have h2 : (afterUrl env q (prop.property_code.getD "")
        (prop.property_name.getD "") target (.fetchProperty q :: tr)).1 =
        .pdf f m pages := h
    unfold afterUrl at h2
    rcases henc : env.qrEnc target with er | img <;> rw [henc] at h2
    · simp at h2
    · rcases hread : env.readTemplate with er | ps <;> rw [hread] at h2
      · simp at h2
      · rcases ps with _ | ⟨b, rest⟩
        · simp at h2
        · simp only [Response.pdf.injEq] at h2
          exact ⟨h2.2.1.symm, h2.1.symm⟩

/-- C6: every successful response carries the `application/pdf` mimetype and
an attachment filename of `<property_code>.pdf` when the record's code is
non-empty, else `<property_id>.pdf`. -/
theorem attachment_filename_and_mimetype (env : Env) (body : ReqBody)
    (pid : String) (prop : PropRow) (f m : String) (pages : List Page)
    (hpid : getPropertyId body = some pid)
    (hrow : env.db_properties pid = .ok (some prop))
    (hresp : (generate_pdf env body).1 = .pdf f m pages) :
    m = "application/pdf" ∧
    f = (if prop.property_code.getD "" = "" then pid
         else prop.property_code.getD "") ++ ".pdf" := by
  cases body with
  | invalid => cases hpid
  | obj pid0 =>
    cases hpid
    simp only [generate_pdf, getPropertyId] at hresp
    by_cases hq : pid = ""
    · simp [hq] at hresp
    · simp only [if_neg hq] at hresp
      rcases ht : env.templateExists with _ | _
      · rw [ht] at hresp; simp at hresp
      · rw [ht] at hresp
        simp only [Bool.true_eq_false, if_false] at hresp
        have hf : fetch_property_row env pid = .ok (some prop) := hrow
        rw [hf] at hresp
        exact afterFetch_pdf_filename env pid prop f m pages hresp

/-- The visible response of the post-URL steps depends only on the id, the two
text fields, the target URL, the encoder's output at that URL and the template
bytes — not on the incoming trace nor any other part of the environment. -/
lemma afterUrl_fst_congr (e1 e2 : Env) (q c n url : String)
    (tr1 tr2 : List Event)
    (hq : e1.qrEnc url = e2.qrEnc url)
    (ht : e1.readTemplate = e2.readTemplate) :
    (afterUrl e1 q c n url tr1).1 = (afterUrl e2 q c n url tr2).1 := by
  unfold afterUrl
  rw [hq, ht]
  rcases e2.qrEnc url with er | img
  · rfl
  · rcases e2.readTemplate with er | ps
    · rfl
    · rcases ps with _ | ⟨b, rest⟩ <;> rfl

/-- The visible response of the post-fetch steps is determined by the id, the
record's `property_code`/`property_name`, the resolved target URL, the
encoder's output there, and the template bytes. -/
lemma afterFetch_fst_congr (e1 e2 : Env) (q : String) (p1 p2 : PropRow)
    (u : String)
    (hc : p1.property_code = p2.property_code)
    (hn : p1.property_name = p2.property_name)
    (hu1 : (resolveTargetUrl e1 p1).1 = .ok u)
    (hu2 : (resolveTargetUrl e2 p2).1 = .ok u)
    (hq : e1.qrEnc u = e2.qrEnc u)
    (htr : e1.readTemplate = e2.readTemplate) :
    (afterFetch e1 q p1).1 = (afterFetch e2 q p2).1 := by
  unfold afterFetch
  rcases hr1 : resolveTargetUrl e1 p1 with ⟨r1, t1⟩
  rcases hr2 : resolveTargetUrl e2 p2 with ⟨r2, t2⟩
  rw [hr1] at hu1
  rw [hr2] at hu2
  simp at hu1 hu2
  subst hu1
  subst hu2
  rw [hc, hn]
  exact afterUrl_fst_congr e1 e2 q _ _ u _ _ hq htr

/-- C5: for a fixed fetched record (code, name) and a fixed resolved target
URL, two independent invocations of the pipeline — even against environments
differing in every unrelated row, as long as the deterministic QR library and
the template agree — produce identical visible responses: same drawn text at
the same coordinates and the same QR module pattern. -/
theorem pipeline_output_deterministic (e1 e2 : Env) (pid : String)
    (p1 p2 : PropRow) (u : String)
    (h1 : e1.db_properties pid = .ok (some p1))
    (h2 : e2.db_properties pid = .ok (some p2))
    (hc : p1.property_code = p2.property_code)
    (hn : p1.property_name = p2.property_name)
    (hu1 : (resolveTargetUrl e1 p1).1 = .ok u)
    (hu2 : (resolveTargetUrl e2 p2).1 = .ok u)
    (hq : e1.qrEnc u = e2.qrEnc u)
    (ht : e1.templateExists = e2.templateExists)
    (htr : e1.readTemplate = e2.readTemplate)
    (hne : pid ≠ "") :
    (generate_pdf e1 (.obj (some pid))).1 =
      (generate_pdf e2 (.obj (some pid))).1 := by
  simp only [generate_pdf, getPropertyId]
  simp only [if_neg hne]
  rw [ht]
  rcases hte : e2.templateExists with _ | _
  · simp
  · simp only [Bool.true_eq_false, if_false]
    have hf1 : fetch_property_row e1 pid = .ok (some p1) := h1
    have hf2 : fetch_property_row e2 pid = .ok (some p2) := h2
    rw [hf1, hf2]
    exact afterFetch_fst_congr e1 e2 pid p1 p2 u hc hn hu1 hu2 hq htr

/-- Witness for C5 at two (identical) concrete environments. -/
theorem pipeline_output_deterministic_witness :
    env0.db_properties "p1" = .ok (some row1) ∧
    row1.property_code = row1.property_code ∧
    row1.property_name = row1.property_name ∧
    (resolveTargetUrl env0 row1).1 = .ok "https://example.com/q" ∧
    env0.qrEnc "https://example.com/q" = env0.qrEnc "https://example.com/q" ∧
    env0.templateExists = env0.templateExists ∧
    env0.readTemplate = env0.readTemplate ∧
    "p1" ≠ "" ∧
    (generate_pdf env0 (.obj (some "p1"))).1 =
      (generate_pdf env0 (.obj (some "p1"))).1 :=
  ⟨by simp [env0], rfl, rfl, rfl, rfl, rfl, rfl, by decide,
    pipeline_output_deterministic env0 env0 "p1" row1 row1
      "https://example.com/q" (by simp [env0]) (by simp [env0]) rfl rfl
      rfl rfl rfl rfl rfl (by decide)⟩

/-- C7 counterexample: with a record whose `property_name` and `property_code`
columns are null, the composed page still draws the texts `Property: ` and
`Code: ` at the field anchors — visible placeholder text is rendered for the
empty fields, refuting that nothing is drawn for them. -/
theorem empty_fields_still_draw_labels :
    rowBare.property_name = none ∧ rowBare.property_code = none ∧
    (generate_pdf envBare (.obj (some "p1"))).1 =
      .pdf "p1.pdf" "application/pdf"
        [{ width := 612, height := 792,
           ops := [ .setFont "Helvetica-Bold" 13
                  , .text 72 700 "Property: "
                  , .text 72 680 "Code: "
                  , .image 430 560 150 150 qrImg0 ] }] :=
  ⟨rfl, rfl, by decide⟩

/-- C7 amended: composing with empty `code` and `name` succeeds without error
and the empty fields contribute no content of their own, but the fixed labels
`Property: ` and `Code: ` are still drawn at the field anchors (the source
always draws the prefixed strings). -/
theorem overlay_always_draws_field_labels (img : QRImage) :
    composeOverlay "" "" img =
      { width := 612, height := 792,
        ops := [ .setFont "Helvetica-Bold" 13
               , .text 72 700 "Property: "
               , .text 72 680 "Code: "
               , .image 430 560 150 150 img ] } := by
  simp [composeOverlay]

/-- C8 counterexample: with a template page of 300×400 points — differing from
the 612×792 overlay — the request still succeeds with a PDF response (the
merge silently keeps the base geometry and overlays the content), refuting
that a geometry mismatch is reported as HTTP 500. -/
theorem mismatched_template_still_succeeds :
    smallPage.width ≠ (composeOverlay "Name One" "CODE1" qrImg0).width ∧
    smallPage.height ≠ (composeOverlay "Name One" "CODE1" qrImg0).height ∧
    envMismatch.readTemplate = .ok [smallPage] ∧
    (generate_pdf envMismatch (.obj (some "p1"))).1 =
      .pdf "CODE1.pdf" "application/pdf"
        [{ width := 300, height := 400,
           ops := [ .text 5 5 "base artwork"
                  , .setFont "Helvetica-Bold" 13
                  , .text 72 700 "Property: Name One"
                  , .text 72 680 "Code: CODE1"
                  , .image 430 560 150 150 qrImg0 ] }] :=
  ⟨by decide, by decide, rfl, by decide⟩

/-- C8 amended: the handler performs no page-geometry comparison at all — for
any template page, of any size, reaching the merge step yields a successful
PDF response whose single page keeps the template's geometry with the overlay
content drawn on top; a mismatched template is never rejected and never
reported as 500 (template failures are only: missing file, unreadable file,
or a template with no pages). -/
theorem merge_succeeds_regardless_of_geometry (env : Env) (body : ReqBody)
    (pid : String) (prop : PropRow) (u : String) (img : QRImage)
    (base : Page) (rest : List Page) (tr : List Event)
    (hpid : getPropertyId body = some pid) (hne : pid ≠ "")
    (ht : env.templateExists = true)
    (hrow : env.db_properties pid = .ok (some prop))
    (hres : resolveTargetUrl env prop = (.ok u, tr))
    (hqr : env.qrEnc u = .ok img)
    (hread : env.readTemplate = .ok (base :: rest)) :
    (generate_pdf env body).1 =
      .pdf ((if prop.property_code.getD "" = "" then pid
             else prop.property_code.getD "") ++ ".pdf") "application/pdf"
        [mergePage base (composeOverlay (prop.property_name.getD "")
            (prop.property_code.getD "") img)] := by
  cases body with
  | invalid => cases hpid
  | obj pid0 =>
    cases hpid
    simp only [generate_pdf, getPropertyId]
    rw [if_neg hne, ht]
    simp only [Bool.true_eq_false, if_false]
    have hf : fetch_property_row env pid = .ok (some prop) := hrow
    rw [hf]
    show (afterFetch env pid prop).1 = _
    unfold afterFetch
    rw [hres]
    show (afterUrl env pid (prop.property_code.getD "")
      (prop.property_name.getD "") u (.fetchProperty pid :: tr)).1 = _
    unfold afterUrl
    rw [hqr, hread]

/-- Witness for C8's amended statement, instantiated with the mismatched
300×400 template page. -/
theorem merge_succeeds_regardless_of_geometry_witness :
    getPropertyId (.obj (some "p1")) = some "p1" ∧
    "p1" ≠ "" ∧
    envMismatch.templateExists = true ∧
    envMismatch.db_properties "p1" = .ok (some row1) ∧
    resolveTargetUrl envMismatch row1 = (.ok "https://example.com/q", []) ∧
    envMismatch.qrEnc "https://example.com/q" = .ok qrImg0 ∧
    envMismatch.readTemplate = .ok (smallPage :: []) ∧
    (generate_pdf envMismatch (.obj (some "p1"))).1 =
      .pdf ((if row1.property_code.getD "" = "" then "p1"
             else row1.property_code.getD "") ++ ".pdf") "application/pdf"
        [mergePage smallPage (composeOverlay (row1.property_name.getD "")
            (row1.property_code.getD "") qrImg0)] :=
  ⟨rfl, by decide, rfl, by simp [envMismatch, env0], rfl, rfl, rfl,
    merge_succeeds_regardless_of_geometry envMismatch (.obj (some "p1"))
      "p1" row1 "https://example.com/q" qrImg0 smallPage [] []
      rfl (by decide) rfl (by simp [envMismatch, env0]) rfl rfl rfl⟩

/-- Witness for C6 at `env0`. -/
theorem attachment_filename_and_mimetype_witness :
    getPropertyId (.obj (some "p1")) = some "p1" ∧
    env0.db_properties "p1" = .ok (some row1) ∧
    (generate_pdf env0 (.obj (some "p1"))).1 =
      .pdf "CODE1.pdf" "application/pdf"
        [{ width := 612, height := 792,
           ops := [ .setFont "Helvetica-Bold" 13
                  , .text 72 700 "Property: Name One"
                  , .text 72 680 "Code: CODE1"
                  , .image 430 560 150 150 qrImg0 ] }] ∧
    ("application/pdf" = "application/pdf" ∧
      "CODE1.pdf" = (if row1.property_code.getD "" = "" then "p1"
                     else row1.property_code.getD "") ++ ".pdf") :=
  ⟨rfl, by simp [env0], by decide,
    attachment_filename_and_mimetype env0 (.obj (some "p1")) "p1" row1
      "CODE1.pdf" "application/pdf"
      [{ width := 612, height := 792,
         ops := [ .setFont "Helvetica-Bold" 13
                , .text 72 700 "Property: Name One"
                , .text 72 680 "Code: CODE1"
                , .image 430 560 150 150 qrImg0 ] }]
      rfl (by simp [env0]) (by decide)⟩

end QrService
